import Mathlib

/-!
Verification of the AWS-EKS-pipeline-builder backend
(`backend/app.py`, `backend/lock_manager.py`, `backend/dynamodb_storage.py`)
through a shallow embedding in Lean 4.

Conventions of the embedding:
* `datetime` values are natural numbers (the lock timeout is measured in
  the same unit as `acquired_at`, mirroring `acquired_at + timedelta(minutes=timeout)`).
* The module-level AWS clients are replaced by an explicit `AwsWorld` state;
  remote failures that the Python code catches with `except Exception` are
  modelled by failure-injection flags stored in the world.
* ISO-format timestamp strings are modelled by their numeric timestamps.
-/

/- ===================== lock_manager.py ===================== -/

/-- One entry of `LockManager.locks` (lock_manager.py lines 61-65). -/
structure LockInfo where
  user_id : String
  acquired_at : Nat
  last_activity : Nat
deriving DecidableEq, Repr

/-- The mutable state of `LockManager`: the lock table and the configured
timeout (lock_manager.py lines 18-19). -/
structure LockManager where
  locks : List (String × LockInfo)
  lock_timeout_minutes : Nat
deriving DecidableEq, Repr

/-- Dictionary lookup `self.locks[pipeline_name]`. -/
def lookupLock (st : LockManager) (n : String) : Option LockInfo :=
  (st.locks.find? (fun p => p.1 == n)).map (fun p => p.2)

/-- Dictionary deletion `del self.locks[pipeline_name]`. -/
def eraseLock (st : LockManager) (n : String) : LockManager :=
  { st with locks := st.locks.filter (fun p => p.1 != n) }

/-- Dictionary assignment `self.locks[pipeline_name] = {...}`. -/
def setLock (st : LockManager) (n : String) (info : LockInfo) : LockManager :=
  { st with locks := (n, info) :: st.locks.filter (fun p => p.1 != n) }

/-- Result dictionary returned by `acquire_lock`. -/
structure AcquireResult where
  success : Bool
  locked : Bool
  locked_by : String
  locked_at : Nat
  expires_at : Nat
  message : String
deriving DecidableEq, Repr

/-- The common tail of `acquire_lock` (lines 60-74): store the lock and
return the success dictionary. -/
def acquireFresh (st : LockManager) (current_time : Nat) (pipeline_name user_id : String) :
    LockManager × AcquireResult :=
  (setLock st pipeline_name
     { user_id := user_id, acquired_at := current_time, last_activity := current_time },
   { success := true, locked := true, locked_by := user_id, locked_at := current_time,
     expires_at := current_time + st.lock_timeout_minutes,
     message := "Lock acquired successfully" })

/-- `LockManager.acquire_lock` (lock_manager.py lines 25-74). -/
def acquire_lock (st : LockManager) (current_time : Nat) (pipeline_name user_id : String)
    (force : Bool) : LockManager × AcquireResult :=
  match lookupLock st pipeline_name with
  | some lock_info =>
      let lock_expiry := lock_info.acquired_at + st.lock_timeout_minutes
      if current_time > lock_expiry then
        acquireFresh (eraseLock st pipeline_name) current_time pipeline_name user_id
      else if !force && lock_info.user_id != user_id then
        (st, { success := false, locked := true, locked_by := lock_info.user_id,
               locked_at := lock_info.acquired_at, expires_at := lock_expiry,
               message := "Pipeline is currently being edited by " ++ lock_info.user_id })
      else
        acquireFresh st current_time pipeline_name user_id
  | none => acquireFresh st current_time pipeline_name user_id

/-- Result dictionary returned by `release_lock` and `refresh_lock`. -/
structure ReleaseResult where
  success : Bool
  message : String
deriving DecidableEq, Repr

/-- `LockManager.release_lock` (lock_manager.py lines 76-105).
Note the Python signature: `def release_lock(self, pipeline_name, user_id)` —
there is no `force` parameter. -/
def release_lock (st : LockManager) (pipeline_name user_id : String) :
    LockManager × ReleaseResult :=
  match lookupLock st pipeline_name with
  | none => (st, { success := true, message := "Pipeline was not locked" })
  | some lock_info =>
      if lock_info.user_id != user_id then
        (st, { success := false, message := "Cannot release lock held by " ++ lock_info.user_id })
      else
        (eraseLock st pipeline_name, { success := true, message := "Lock released successfully" })

/-- `LockManager.refresh_lock` (lock_manager.py lines 107-136): bumps only
`last_activity`; `acquired_at` is left untouched. -/
def refresh_lock (st : LockManager) (current_time : Nat) (pipeline_name user_id : String) :
    LockManager × ReleaseResult :=
  match lookupLock st pipeline_name with
  | none => (st, { success := false, message := "Pipeline is not locked" })
  | some lock_info =>
      if lock_info.user_id != user_id then
        (st, { success := false, message := "Cannot refresh lock held by " ++ lock_info.user_id })
      else
        (setLock st pipeline_name { lock_info with last_activity := current_time },
         { success := true, message := "Lock refreshed successfully" })

/-- Status dictionary returned by `get_lock_status`. -/
structure LockStatusInfo where
  locked : Bool
  locked_by : String
  locked_at : Nat
  expires_at : Nat
deriving DecidableEq, Repr

/-- `LockManager.get_lock_status` (lock_manager.py lines 138-166): lazy
expiry — an expired entry is deleted as a side effect of being read. -/
def get_lock_status (st : LockManager) (current_time : Nat) (pipeline_name : String) :
    LockManager × Option LockStatusInfo :=
  match lookupLock st pipeline_name with
  | none => (st, none)
  | some lock_info =>
      let lock_expiry := lock_info.acquired_at + st.lock_timeout_minutes
      if current_time > lock_expiry then
        (eraseLock st pipeline_name, none)
      else
        (st, some { locked := true, locked_by := lock_info.user_id,
                    locked_at := lock_info.acquired_at, expires_at := lock_expiry })

/- ----- Python call semantics for the lock HTTP routes (app.py 1157-1193) ----- -/

/-- A Python value passed as an argument at a call site. -/
inductive PyVal where
  | str (s : String)
  | bool (b : Bool)
deriving DecidableEq, Repr

/-- CPython argument binding for a function whose parameters (besides `self`)
are `params`, none of which has a default: positional arguments are bound in
order, keyword arguments fill the remaining parameters; a surplus positional
argument or an unknown keyword raises `TypeError`. -/
def bindArgs (params : List String) (pos : List PyVal) (kw : List (String × PyVal)) :
    Except String (List (String × PyVal)) :=
  if params.length < pos.length then
    Except.error "TypeError: too many positional arguments"
  else
    let bound := params.zip pos
    let rest := params.drop pos.length
    if kw.any (fun p => !(rest.contains p.1)) then
      Except.error "TypeError: got an unexpected keyword argument"
    else if rest.any (fun p => !(kw.any (fun q => q.1 == p))) then
      Except.error "TypeError: missing a required positional argument"
    else
      Except.ok (bound ++ rest.filterMap (fun p => (kw.find? (fun q => q.1 == p)).map
        (fun q => (p, q.2))))

/-- Parameter list of `LockManager.release_lock` in lock_manager.py line 76:
`(self, pipeline_name, user_id)` — no `force` parameter exists. -/
def release_lock_params : List String := ["pipeline_name", "user_id"]

/-- A dynamic call of the bound method `lock_manager.release_lock` with the
given positional and keyword arguments, using CPython binding rules. -/
def call_release_lock (st : LockManager) (pos : List PyVal) (kw : List (String × PyVal)) :
    Except String (LockManager × ReleaseResult) :=
  match bindArgs release_lock_params pos kw with
  | Except.error e => Except.error e
  | Except.ok bound =>
      match bound.find? (fun q => q.1 == "pipeline_name"),
            bound.find? (fun q => q.1 == "user_id") with
      | some (_, PyVal.str n), some (_, PyVal.str u) => Except.ok (release_lock st n u)
      | _, _ => Except.error "TypeError: argument type mismatch"

/-- Shape of the JSON response of the lock routes, with the HTTP status code. -/
structure LockHttpResponse where
  success : Bool
  httpStatus : Nat
  message : String
deriving DecidableEq, Repr

/-- Route handler `release_pipeline_lock` (app.py lines 1157-1175): passes
THREE positional arguments `(pipeline_name, user_id, force)` to
`lock_manager.release_lock`; any exception is caught and answered with a
500 response. On a normal return the result is answered with 200
regardless of its `success` field. -/
def release_pipeline_lock (st : LockManager) (pipeline_name user_id : String) (force : Bool) :
    LockManager × LockHttpResponse :=
  match call_release_lock st
      [PyVal.str pipeline_name, PyVal.str user_id, PyVal.bool force] [] with
  | Except.ok (st2, r) => (st2, { success := r.success, httpStatus := 200, message := r.message })
  | Except.error e => (st, { success := false, httpStatus := 500, message := e })

/-- Route handler `force_release_pipeline_lock` (app.py lines 1177-1193):
calls `lock_manager.release_lock(pipeline_name, user_id, force=True)` with a
keyword argument `force`; any exception is caught and answered with 500. -/
def force_release_pipeline_lock (st : LockManager) (pipeline_name user_id : String) :
    LockManager × LockHttpResponse :=
  match call_release_lock st [PyVal.str pipeline_name, PyVal.str user_id]
      [("force", PyVal.bool true)] with
  | Except.ok (st2, r) => (st2, { success := r.success, httpStatus := 200, message := r.message })
  | Except.error e => (st, { success := false, httpStatus := 500, message := e })

/- ===================== pipeline name validation (app.py 537-559) ===================== -/

/-- `str.lower` restricted to the ASCII range (all pipeline names the
validation accepts are ASCII; other characters are left unchanged). -/
def pyLowerChar (c : Char) : Char :=
  if 65 ≤ c.toNat ∧ c.toNat ≤ 90 then Char.ofNat (c.toNat + 32) else c

/-- `pipeline_name.lower()`. -/
def pyLower (s : String) : String := ⟨s.data.map pyLowerChar⟩

/-- A character of the class `[a-z0-9]`. -/
def isLowerAlnumChar (c : Char) : Bool :=
  (97 ≤ c.toNat && c.toNat ≤ 122) || (48 ≤ c.toNat && c.toNat ≤ 57)

/-- Full match of the character list against `[a-z0-9][a-z0-9-]*`. -/
def matchesCore : List Char → Bool
  | [] => false
  | c :: rest => isLowerAlnumChar c && rest.all (fun d => isLowerAlnumChar d || d == '-')

/-- `re.match(r'^[a-z0-9][a-z0-9-]*$', s)`: in Python, `$` matches at the
end of the string or just before a newline at the end of the string, so a
single trailing newline is tolerated. -/
def pyNameRegexMatch (s : String) : Bool :=
  matchesCore s.data ||
    (match s.data.getLast? with
     | some c => c == '\n' && matchesCore s.data.dropLast
     | none => false)

/-- The per-pipeline name validation of `create_pipelines`
(app.py lines 537-559), returning the accumulated `validation_errors`. -/
def validationErrors (pipeline_name : String) : List String :=
  if pipeline_name = "" then ["Pipeline name is required"]
  else
    (if pipeline_name.length < 3 then ["Pipeline name must be at least 3 characters"] else []) ++
    (if pipeline_name.length > 60 then ["Pipeline name must not exceed 60 characters"] else []) ++
    (if pyLower pipeline_name ≠ pipeline_name then ["Pipeline name must be lowercase"] else []) ++
    (if !pyNameRegexMatch pipeline_name then
      ["Pipeline name must start with a letter or number and contain only lowercase letters, numbers, and hyphens"]
     else [])

/- ===================== data model for app.py ===================== -/

/-- One entry of the `environmentVariables` list of a pipeline request. -/
structure EnvVar where
  name : String
  value : String
deriving DecidableEq, Repr

/-- The `deploymentConfig` dictionary; only the `namespace` key is read by
the creation workflow (`namespc` models it). A present config is assumed to
be a non-empty dict (Python truthiness). -/
structure DeployConfig where
  namespc : Option String := none
deriving DecidableEq, Repr

/-- The `scalingConfig` dictionary; `scalingType` models its `type` key. -/
structure ScalingConfig where
  scalingType : Option String := none
deriving DecidableEq, Repr

/-- One pipeline request of the batch POST /api/pipelines body. -/
structure PipelineConfig where
  pipelineName : String
  repositoryName : String
  branchName : String
  buildspecPath : String
  useBuildspecFile : Bool := true
  buildspec : Option String := none
  computeType : String
  environmentVariables : List EnvVar := []
  appsettingsContent : Option String := none
  deploymentConfig : Option DeployConfig := none
  scalingConfig : Option ScalingConfig := none
deriving DecidableEq, Repr

/-- The `resources` sub-record of the persisted metadata (app.py 939-946). -/
structure MetaResources where
  pipeline : String
  codebuild : String
  ecrRepository : String
  s3Bucket : String
  appsettingsRepo : Option String
  manifestRepo : Option String
deriving DecidableEq, Repr

/-- A pipeline metadata record as stored by `save_pipeline_metadata` /
`DynamoDBStorage.save_pipeline` (app.py 926-949, dynamodb_storage.py 75-103). -/
structure MetaItem where
  name : String
  pipelineName : String
  repositoryName : String
  branchName : String
  buildspecPath : String
  useBuildspecFile : Bool
  buildspec : Option String
  computeType : String
  environmentVariables : List EnvVar
  deploymentConfig : Option DeployConfig
  scalingConfig : Option ScalingConfig
  pipelineArn : String
  resources : MetaResources
  createdAt : Nat
  lastUpdated : Nat
deriving DecidableEq, Repr

/-- The remote AWS control-plane state together with the metadata table.
Remote-call failures that the Python code catches with broad `except`
handlers are modelled by the failure-injection flags. -/
structure AwsWorld where
  codepipelines : List (String × String) := []   -- (pipeline name, artifact bucket)
  codebuildProjects : List String := []
  ecrRepos : List String := []
  s3Buckets : List String := []
  codecommitRepos : List String := []            -- existing repositories (branch main)
  codecommitFiles : List (String × String) := [] -- (repository, file path)
  metadataTable : List MetaItem := []
  buildspecTemplate : Option String := some ""   -- buildspec-template.yml content
  failCreateEcr : Bool := false
  failCreateBucket : Bool := false
  failCreateBuild : Bool := false
  failCreatePipeline : Bool := false
  failUploadAppsettings : Bool := false
  failUploadManifest : Bool := false
  failUploadScaling : Bool := false
  failSaveMetadata : Bool := false
deriving DecidableEq, Repr

/-- A source of `datetime.now()` samples: `f` is the wall clock read at the
`i`-th call. Monotone `f` models a monotone wall clock. -/
structure Clock where
  f : Nat → Nat
  i : Nat

/-- One `datetime.now()` call. -/
def tick (c : Clock) : Nat × Clock := (c.f c.i, { c with i := c.i + 1 })

/-- Remote calls issued by the provisioning workflow, in order. -/
inductive Ev where
  | createEcr (name : String)
  | createBucket (name : String)
  | createBuild (name : String)
  | createPipeline (name : String)
  | putFile (repo path : String)
  | delPipeline (name : String)
  | delBuild (name : String)
  | delEcr (name : String)
  | delBucket (name : String)
deriving DecidableEq, Repr

/-- Is the event a deletion attempt (issued only by rollback)? -/
def Ev.isDelete : Ev → Bool
  | delPipeline _ => true
  | delBuild _ => true
  | delEcr _ => true
  | delBucket _ => true
  | _ => false

/-- The `created_resources` rollback ledger (app.py 572-579). -/
structure CreatedResources where
  ecr_repository : Option String := none
  codebuild_project : Option String := none
  codepipeline : Option String := none
  s3_bucket : Option String := none
  codecommit_files : List String := []
deriving DecidableEq, Repr

/-- One entry of the `created_pipelines` response list. Fields model the
keys of the Python dict; `none` means the key is absent. The `error` field
holds the `creation_error` text and `rollbackErrors` the
`rollback_errors` value of the nested error dict (app.py 974-977). -/
structure RespItem where
  name : Option String := none
  pipelineName : Option String := none
  success : Option Bool := none
  status : Option String := none
  error : Option String := none
  rollbackErrors : Option (List String) := none
  pipelineArn : Option String := none
  s3Bucket : Option String := none
deriving DecidableEq, Repr

/- ===================== env-var repository resolution ===================== -/

/-- Pre-flight resolution (app.py 613-620): the loop keeps the LAST
occurrence of the key; an empty value then falls back to the default via
`or`. -/
def preflightRepo (envs : List EnvVar) (key dflt : String) : String :=
  match (envs.filter (fun e => e.name == key)).getLast? with
  | some e => if e.value = "" then dflt else e.value
  | none => dflt

/-- Upload-time resolution (app.py 866-870, 887-891): the FIRST occurrence
with a non-empty value, no default. -/
def uploadRepo (envs : List EnvVar) (key : String) : Option String :=
  (envs.find? (fun e => e.name == key && e.value != "")).map (fun e => e.value)

/-- Deletion-time resolution (app.py 2008-2016): the LAST occurrence with a
non-empty value, then a default. -/
def deletionRepo (envs : List EnvVar) (key dflt : String) : String :=
  match (envs.filter (fun e => e.name == key && e.value != "")).getLast? with
  | some e => e.value
  | none => dflt

/-- Metadata `resources` resolution (app.py 944-945): the FIRST occurrence
of the key, regardless of its value. -/
def firstEnvValue (envs : List EnvVar) (key : String) : Option String :=
  (envs.find? (fun e => e.name == key)).map (fun e => e.value)

/- ===================== derived names ===================== -/

def awsRegion : String := "ap-south-1"

def awsAccountId : String := "465105616690"

/-- `pipeline_name[:6].lower().replace('_', '-').replace(' ', '')`
(app.py line 668 and line 1960): both replacements are single-character,
so they are performed character-wise. -/
def truncatedName (n : String) : String :=
  String.mk ((((pyLower (String.mk (n.data.take 6))).data.map
    (fun c => if c == '_' then '-' else c)).filter (fun c => c != ' ')))

/-- `datetime.now().strftime('%Y%m%d%H%M%S')`: a 14-character digit string,
modelled as the timestamp zero-padded to 14 digits. -/
def fmtTimestamp (t : Nat) : String :=
  let s := toString t
  String.mk (List.replicate (14 - s.length) '0') ++ s

/-- Artifact bucket name `f"{truncated_name}-{timestamp}"` (app.py 671). -/
def bucketNameFor (n : String) (ts : Nat) : String :=
  truncatedName n ++ "-" ++ fmtTimestamp ts

/-- The fallback CodePipeline ARN construction (app.py 857, 861). -/
def pipelineArnFor (n : String) : String :=
  "arn:aws:codepipeline:" ++ awsRegion ++ ":" ++ awsAccountId ++ ":pipeline/" ++ n

/- ===================== pre-flight existence check (app.py 584-651) ===================== -/

/-- The `existing_resources` list accumulated by the pre-flight check, in
source order. Quote characters of the Python f-strings are elided. -/
def preflightConflicts (w : AwsWorld) (cfg : PipelineConfig) : List String :=
  let n := cfg.pipelineName
  let manifest_repo := preflightRepo cfg.environmentVariables "MANIFEST_REPO" "staging-repo"
  let appsettings_repo :=
    preflightRepo cfg.environmentVariables "APPSETTINGS_REPO" "modernization-appsettings-repo"
  (if w.codepipelines.any (fun p => p.1 == n) then ["CodePipeline " ++ n] else []) ++
  (if w.codebuildProjects.contains (n ++ "-build") then
    ["CodeBuild project " ++ n ++ "-build"] else []) ++
  (if w.ecrRepos.contains n then ["ECR repository " ++ n] else []) ++
  (if w.codecommitFiles.contains (manifest_repo, n ++ "/" ++ n ++ ".yml") then
    ["Manifest folder " ++ n ++ " in " ++ manifest_repo] else []) ++
  (if w.codecommitFiles.contains (appsettings_repo, n ++ "/appsettings.json") then
    ["Appsettings folder " ++ n ++ " in " ++ appsettings_repo] else [])

/- ===================== rollback (app.py 375-446) ===================== -/

/-- `rollback_pipeline_resources`: best-effort deletion of every ledger
entry, in source order (pipeline, build project, ECR repository, S3
bucket); each attempted call is recorded as an event, and a deletion of an
absent resource contributes a rollback error (the raised AWS not-found
error, caught per resource). Uploaded CodeCommit files are not rolled
back. -/
def rollback_pipeline_resources (w : AwsWorld) (created : CreatedResources)
    (_pipeline_name : String) : AwsWorld × List Ev × List String :=
  let s1 : AwsWorld × List Ev × List String :=
    match created.codepipeline with
    | none => (w, [], [])
    | some p =>
        if w.codepipelines.any (fun q => q.1 == p) then
          ({ w with codepipelines := w.codepipelines.filter (fun q => q.1 != p) },
           [Ev.delPipeline p], [])
        else (w, [Ev.delPipeline p], ["Failed to delete CodePipeline: not found"])
  let s2 : AwsWorld × List Ev × List String :=
    match created.codebuild_project with
    | none => s1
    | some p =>
        if s1.1.codebuildProjects.contains p then
          ({ s1.1 with codebuildProjects := s1.1.codebuildProjects.filter (fun q => q != p) },
           s1.2.1 ++ [Ev.delBuild p], s1.2.2)
        else (s1.1, s1.2.1 ++ [Ev.delBuild p],
              s1.2.2 ++ ["Failed to delete CodeBuild project: not found"])
  let s3 : AwsWorld × List Ev × List String :=
    match created.ecr_repository with
    | none => s2
    | some p =>
        if s2.1.ecrRepos.contains p then
          ({ s2.1 with ecrRepos := s2.1.ecrRepos.filter (fun q => q != p) },
           s2.2.1 ++ [Ev.delEcr p], s2.2.2)
        else (s2.1, s2.2.1 ++ [Ev.delEcr p],
              s2.2.2 ++ ["Failed to delete ECR repository: not found"])
  match created.s3_bucket with
  | none => s3
  | some p =>
      if s3.1.s3Buckets.contains p then
        ({ s3.1 with s3Buckets := s3.1.s3Buckets.filter (fun q => q != p) },
         s3.2.1 ++ [Ev.delBucket p], s3.2.2)
      else (s3.1, s3.2.1 ++ [Ev.delBucket p],
            s3.2.2 ++ ["Failed to delete S3 bucket: not found"])

/- ===================== per-pipeline provisioning (app.py 527-984) ===================== -/

/-- The result of processing one pipeline of the batch. -/
structure CreateOutcome where
  world : AwsWorld
  clock : Clock
  item : RespItem
  events : List Ev

/-- The `except pipeline_error` handler (app.py 968-984): roll back the
ledger and emit the per-pipeline error item with status `error`. -/
def creationFailure (w : AwsWorld) (clk : Clock) (n : String) (created : CreatedResources)
    (msg : String) (evs : List Ev) : CreateOutcome :=
  let rb := rollback_pipeline_resources w created n
  { world := rb.1, clock := clk,
    item := { pipelineName := some n, pipelineArn := none, status := some "error",
              error := some msg,
              rollbackErrors := if rb.2.2.isEmpty then none else some rb.2.2 },
    events := evs ++ rb.2.1 }

/-- The best-effort upload phase (app.py 863-922): appsettings file,
deployment manifest, and scaling manifest. Each upload happens only when
its configuration is present and the repository env var resolves; a
failure is caught and logged, leaving world, events, and ledger as they
were. The rollback ledger only records the uploaded file names. -/
def bestEffortUploads (w4 : AwsWorld) (n : String) (cfg : PipelineConfig)
    (ev4 : List Ev) (led4 : CreatedResources) : AwsWorld × List Ev × CreatedResources :=
  let envs := cfg.environmentVariables
  -- best-effort appsettings upload (app.py 863-882)
  let step5 : AwsWorld × List Ev × CreatedResources :=
    match cfg.appsettingsContent, uploadRepo envs "APPSETTINGS_REPO" with
    | some c, some r =>
        if c != "" && !w4.failUploadAppsettings then
          ({ w4 with codecommitFiles :=
              (r, n ++ "/appsettings.json") :: w4.codecommitFiles },
           ev4 ++ [Ev.putFile r (n ++ "/appsettings.json")],
           { led4 with codecommit_files :=
              led4.codecommit_files ++ [r ++ "/" ++ n ++ "/appsettings.json"] })
        else (w4, ev4, led4)
    | _, _ => (w4, ev4, led4)
  -- best-effort deployment manifest upload (app.py 884-905)
  let maniRepoOpt := uploadRepo envs "MANIFEST_REPO"
  let step6 : AwsWorld × List Ev × CreatedResources :=
    match cfg.deploymentConfig, maniRepoOpt with
    | some _, some r =>
        if !w4.failUploadManifest then
          ({ step5.1 with codecommitFiles :=
              (r, n ++ "/" ++ n ++ ".yml") :: step5.1.codecommitFiles },
           step5.2.1 ++ [Ev.putFile r (n ++ "/" ++ n ++ ".yml")],
           { step5.2.2 with codecommit_files :=
              step5.2.2.codecommit_files ++ [r ++ "/" ++ n ++ "/" ++ n ++ ".yml"] })
        else step5
    | _, _ => step5
  -- best-effort scaling manifest upload (app.py 907-922)
  match cfg.scalingConfig, cfg.deploymentConfig, maniRepoOpt with
  | some sc, some _, some r =>
      let scaling_type := sc.scalingType.getD "hpa"
      let path := n ++ "/" ++ n ++ "-" ++ scaling_type ++ ".yml"
      if !w4.failUploadScaling then
        ({ step6.1 with codecommitFiles := (r, path) :: step6.1.codecommitFiles },
         step6.2.1 ++ [Ev.putFile r path],
         { step6.2.2 with codecommit_files :=
            step6.2.2.codecommit_files ++ [r ++ "/" ++ path] })
      else step6
  | _, _, _ => step6

/-- One iteration of the `for pipeline_config in pipelines` loop of
`create_pipelines` (app.py 527-984): name validation, pre-flight existence
check, resource creation in source order (ECR repository, S3 artifact
bucket, CodeBuild project, CodePipeline), best-effort uploads, metadata
persistence; any core-creation failure triggers the rollback handler. -/
def createOnePipeline (w : AwsWorld) (clk : Clock) (cfg : PipelineConfig) : CreateOutcome :=
  let n := cfg.pipelineName
  let vErrs := validationErrors n
  if !vErrs.isEmpty then
    { world := w, clock := clk,
      item := { name := some n, success := some false,
                error := some ("Pipeline name validation failed: " ++
                  String.intercalate "; " vErrs) },
      events := [] }
  else
    let conflicts := preflightConflicts w cfg
    if !conflicts.isEmpty then
      { world := w, clock := clk,
        item := { name := some n, success := some false,
                  error := some ("Cannot create pipeline " ++ n ++
                    ". The following resources already exist: " ++
                    String.intercalate ", " conflicts) },
        events := [] }
    else if w.failCreateEcr then
      -- ecr.create_repository raised something other than
      -- RepositoryAlreadyExistsException: nothing in the ledger yet
      creationFailure w clk n {} "Failed to create ECR repository" []
    else
      -- RepositoryAlreadyExistsException is caught and leaves the ledger empty
      let ecrNew := !(w.ecrRepos.contains n)
      let w1 := if ecrNew then { w with ecrRepos := n :: w.ecrRepos } else w
      let led1 : CreatedResources := if ecrNew then { ecr_repository := some n } else {}
      let ev1 := if ecrNew then [Ev.createEcr n] else []
      let (ts, clk1) := tick clk
      let bucket_name := bucketNameFor n ts
      if w.failCreateBucket then
        creationFailure w1 clk1 n led1 "Failed to create S3 bucket" ev1
      else
        let w2 := { w1 with s3Buckets := bucket_name :: w1.s3Buckets }
        let led2 := { led1 with s3_bucket := some bucket_name }
        let ev2 := ev1 ++ [Ev.createBucket bucket_name]
        -- buildspec preparation (app.py 712-719); the template file is only
        -- opened when useBuildspecFile is false, and a missing file raises
        if !cfg.useBuildspecFile && w.buildspecTemplate.isNone then
          creationFailure w2 clk1 n led2 "buildspec-template.yml not found" ev2
        else if w.failCreateBuild then
          creationFailure w2 clk1 n led2 "Failed to create CodeBuild project" ev2
        else
          -- ResourceAlreadyExistsException is caught, ledger not updated
          let codebuild_project_name := n ++ "-build"
          let buildNew := !(w2.codebuildProjects.contains codebuild_project_name)
          let w3 := if buildNew then
              { w2 with codebuildProjects := codebuild_project_name :: w2.codebuildProjects }
            else w2
          let led3 := if buildNew then { led2 with codebuild_project := some codebuild_project_name }
            else led2
          let ev3 := ev2 ++ (if buildNew then [Ev.createBuild codebuild_project_name] else [])
          if w.failCreatePipeline then
            creationFailure w3 clk1 n led3 "Failed to create CodePipeline" ev3
          else
            -- PipelineNameInUseException is caught, ledger not updated; the
            -- ARN falls back to the constructed one in both branches
            let pipeline_arn := pipelineArnFor n
            let pipeNew := !(w3.codepipelines.any (fun p => p.1 == n))
            let w4 := if pipeNew then
                { w3 with codepipelines := (n, bucket_name) :: w3.codepipelines }
              else w3
            let led4 := if pipeNew then { led3 with codepipeline := some n } else led3
            let ev4 := ev3 ++ (if pipeNew then [Ev.createPipeline n] else [])
            let envs := cfg.environmentVariables
            let step7 := bestEffortUploads w4 n cfg ev4 led4
            -- metadata persistence (app.py 924-957): createdAt and
            -- lastUpdated are two separate datetime.now() calls
            let (t1, clk2) := tick clk1
            let (t2, clk3) := tick clk2
            let metaRec : MetaItem :=
              { name := n, pipelineName := n,
                repositoryName := cfg.repositoryName, branchName := cfg.branchName,
                buildspecPath := cfg.buildspecPath, useBuildspecFile := cfg.useBuildspecFile,
                buildspec :=
                  (match cfg.useBuildspecFile, cfg.buildspec with
                   | false, some c => if c != "" then some c else none
                   | _, _ => none),
                computeType := cfg.computeType, environmentVariables := envs,
                deploymentConfig := cfg.deploymentConfig, scalingConfig := cfg.scalingConfig,
                pipelineArn := pipeline_arn,
                resources :=
                  { pipeline := n, codebuild := n ++ "-build", ecrRepository := n,
                    s3Bucket := bucket_name,
                    appsettingsRepo := firstEnvValue envs "APPSETTINGS_REPO",
                    manifestRepo := firstEnvValue envs "MANIFEST_REPO" },
                createdAt := t1, lastUpdated := t2 }
            -- DynamoDBStorage.save_pipeline samples datetime.now() once more
            -- for its default lastUpdated, which the copied record fields
            -- then overwrite (dynamodb_storage.py 81-94)
            let (_, clk4) := tick clk3
            let w8 := if w.failSaveMetadata then step7.1
              else { step7.1 with metadataTable :=
                      metaRec :: step7.1.metadataTable.filter (fun m => m.name != n) }
            { world := w8, clock := clk4,
              item := { pipelineName := some n, pipelineArn := some pipeline_arn,
                        status := some "created", s3Bucket := some bucket_name },
              events := step7.2.1 }

/- ===================== batch classification (app.py 986-1012) ===================== -/

/-- The JSON envelope and HTTP status of the batch response. -/
structure BatchResponse where
  success : Bool
  httpStatus : Nat
  pipelines : List RespItem
  message : String
deriving DecidableEq, Repr

/-- Final classification of the batch (app.py 986-1012): only items whose
`status` key is `error` or `created` are counted; validation and
pre-flight-conflict items carry no `status` key. -/
def classifyBatch (items : List RespItem) : BatchResponse :=
  let failed := items.filter (fun p => p.status == some "error")
  let successful := items.filter (fun p => p.status == some "created")
  if !failed.isEmpty && successful.isEmpty then
    { success := false, httpStatus := 500, pipelines := items,
      message := "Failed to create " ++ toString failed.length ++
        " pipeline(s). All resources have been rolled back." }
  else if !failed.isEmpty then
    { success := false, httpStatus := 207, pipelines := items,
      message := "Created " ++ toString successful.length ++ " pipeline(s), failed " ++
        toString failed.length ++ " pipeline(s). Failed resources have been rolled back." }
  else
    { success := true, httpStatus := 200, pipelines := items,
      message := "Successfully created " ++ toString successful.length ++ " pipeline(s)" }

/-- Accumulator of the batch loop. -/
structure BatchAcc where
  world : AwsWorld
  clock : Clock
  items : List RespItem
  events : List Ev

/-- One loop iteration of the batch route applied to the accumulator. -/
def batchStep (acc : BatchAcc) (cfg : PipelineConfig) : BatchAcc :=
  let o := createOnePipeline acc.world acc.clock cfg
  { world := o.world, clock := o.clock,
    items := acc.items ++ [o.item], events := acc.events ++ o.events }

/-- The POST /api/pipelines route `create_pipelines` (app.py 506-1012):
process the requested pipelines sequentially, then classify the batch. -/
def create_pipelines (w : AwsWorld) (clk : Clock) (cfgs : List PipelineConfig) :
    BatchAcc × BatchResponse :=
  let acc := cfgs.foldl batchStep { world := w, clock := clk, items := [], events := [] }
  (acc, classifyBatch acc.items)

/- ===================== deletion workflow (app.py 1852-2153) ===================== -/

/-- Response of DELETE /api/pipelines/<name>/delete. -/
structure DeleteResp where
  success : Bool
  successes : List String
  errors : List String
  message : String
deriving DecidableEq, Repr

/-- `possible_files` for the manifest folder (app.py 2031-2038). -/
def possibleManifestFiles (n : String) : List String :=
  [n ++ "/" ++ n ++ ".yml", n ++ "/" ++ n ++ "-hpa.yml", n ++ "/" ++ n ++ "-kafka.yml",
   n ++ "/deployment.yml", n ++ "/service.yml", n ++ "/manifest.yml"]

/-- `possible_files` for the appsettings folder (app.py 2089-2094). -/
def possibleAppsettingsFiles (n : String) : List String :=
  [n ++ "/appsettings.json", n ++ "/appsettings.Development.json",
   n ++ "/appsettings.Production.json", n ++ "/config.json"]

/-- The error appended when the S3 pattern scan finds no bucket: app.py
line 1997 interpolates the undefined variable `pattern`, so the NameError
it raises is caught by the enclosing handler at line 1999 and recorded
instead of the intended message. (Python renders the variable name in
quotes, elided here.) -/
def s3ScanError : String :=
  "❌ Failed to delete S3 artifacts: NameError: name pattern is not defined"

/-- `bucket_name.split('-')[-1]` (app.py 1966): the suffix after the last
hyphen (the whole string when it has no hyphen). -/
def lastDashSegment (s : String) : String :=
  String.mk ((s.data.reverse.takeWhile (fun c => c != '-')).reverse)

/-- `s.startswith(pre)`. -/
def pyStartsWith (s pre : String) : Bool := List.isPrefixOf pre.data s.data

/-- Deletion of one CodeCommit folder via candidate-file enumeration
(app.py 2019-2074 for the manifest repo, 2076-2130 for appsettings): if
the repository is missing, the `get_branch` calls raise and the enclosing
handler records a failure; otherwise each existing candidate file is
deleted in one commit, and finding none is recorded as a no-files error. -/
def deleteFolderStep (w : AwsWorld) (repo : String) (candidates : List String)
    (kind n : String) : AwsWorld × List String × List String :=
  if !(w.codecommitRepos.contains repo) then
    (w, [], ["❌ Failed to delete " ++ kind ++ " folder: repository " ++ repo ++ " not found"])
  else
    let files := candidates.filter (fun p => w.codecommitFiles.contains (repo, p))
    if !files.isEmpty then
      ({ w with codecommitFiles :=
          w.codecommitFiles.filter (fun fp => !(fp.1 == repo && files.contains fp.2)) },
       ["✅ Deleted " ++ kind ++ " folder: " ++ repo ++ "/" ++ n ++ "/ (" ++
          toString files.length ++ " files)"],
       [])
    else
      (w, [], ["⚠️ No " ++ kind ++ " files found for pipeline: " ++ n])

/-- The DELETE /api/pipelines/<name>/delete route `delete_pipeline_resources`
(app.py 1852-2153). Every sub-deletion is independent; `success` is true
iff at least one deletion succeeded. The final metadata deletion models
`DynamoDBStorage.delete_pipeline`, which returns True even when the item
is absent (DynamoDB delete_item is a no-op success on a missing key), so
its not-found branch is unreachable without a client error. -/
def delete_pipeline_resources (w : AwsWorld) (pipeline_name : String) :
    AwsWorld × DeleteResp :=
  let n := pipeline_name
  let pipeline_meta := w.metadataTable.find? (fun m => m.name == n)
  -- 1. delete CodePipeline
  let hasPipe := w.codepipelines.any (fun p => p.1 == n)
  let w1 := if hasPipe then
      { w with codepipelines := w.codepipelines.filter (fun p => p.1 != n) }
    else w
  let succ1 : List String := if hasPipe then ["✅ Deleted CodePipeline: " ++ n] else []
  let err1 : List String := if hasPipe then [] else ["⚠️ CodePipeline " ++ n ++ " not found"]
  -- 2. delete CodeBuild project
  let bn := n ++ "-build"
  let hasBuild := w1.codebuildProjects.contains bn
  let w2 := if hasBuild then
      { w1 with codebuildProjects := w1.codebuildProjects.filter (fun p => p != bn) }
    else w1
  let succ2 : List String := if hasBuild then ["✅ Deleted CodeBuild project: " ++ bn] else []
  let err2 : List String :=
    if hasBuild then [] else ["⚠️ CodeBuild project " ++ bn ++ " not found"]
  -- 3. delete ECR repository
  let hasEcr := w2.ecrRepos.contains n
  let w3 := if hasEcr then { w2 with ecrRepos := w2.ecrRepos.filter (fun p => p != n) } else w2
  let succ3 : List String := if hasEcr then ["✅ Deleted ECR repository: " ++ n] else []
  let err3 : List String := if hasEcr then [] else ["⚠️ ECR repository " ++ n ++ " not found"]
  -- 4. delete the S3 artifact bucket: name from metadata first, then from
  -- the (already deleted) pipeline description, then a pattern scan
  let bucketFromMeta : Option String :=
    match pipeline_meta with
    | some m => if m.resources.s3Bucket != "" then some m.resources.s3Bucket else none
    | none => none
  let bucket_name : Option String :=
    match bucketFromMeta with
    | some b => some b
    | none => (w3.codepipelines.find? (fun p => p.1 == n)).map (fun p => p.2)
  let step4 : AwsWorld × List String × List String :=
    match bucket_name with
    | some b =>
        if w3.s3Buckets.contains b then
          ({ w3 with s3Buckets := w3.s3Buckets.filter (fun x => x != b) },
           ["✅ Deleted S3 bucket: " ++ b], [])
        else (w3, [], ["⚠️ S3 bucket " ++ b ++ " not found"])
    | none =>
        let truncated := truncatedName n
        let found := w3.s3Buckets.filter
          (fun b => pyStartsWith b (truncated ++ "-") && (lastDashSegment b).length == 14)
        if !found.isEmpty then
          ({ w3 with s3Buckets := w3.s3Buckets.filter (fun x => !(found.contains x)) },
           found.map (fun b => "✅ Deleted S3 bucket: " ++ b), [])
        else
          (w3, [], [s3ScanError])
  -- 5. delete manifest and appsettings folders, only when metadata exists
  let step56 : AwsWorld × List String × List String :=
    match pipeline_meta with
    | none => (step4.1, [], [])
    | some m =>
        let envs := m.environmentVariables
        let manifest_repo := deletionRepo envs "MANIFEST_REPO" "staging-repo"
        let appsettings_repo :=
          deletionRepo envs "APPSETTINGS_REPO" "modernization-appsettings-repo"
        let sM := deleteFolderStep step4.1 manifest_repo (possibleManifestFiles n) "manifest" n
        let sA := deleteFolderStep sM.1 appsettings_repo (possibleAppsettingsFiles n)
          "appsettings" n
        (sA.1, sM.2.1 ++ sA.2.1, sM.2.2 ++ sA.2.2)
  -- 6. delete the metadata record
  let w7 := { step56.1 with metadataTable := step56.1.metadataTable.filter (fun m => m.name != n) }
  let succ6 : List String := ["✅ Deleted pipeline metadata for: " ++ n]
  let successes := succ1 ++ succ2 ++ succ3 ++ step4.2.1 ++ step56.2.1 ++ succ6
  let errors := err1 ++ err2 ++ err3 ++ step4.2.2 ++ step56.2.2
  (w7, { success := !successes.isEmpty, successes := successes, errors := errors,
         message := "Processed deletion of " ++ n ++ ": " ++ toString successes.length ++
           " successes, " ++ toString errors.length ++ " errors" })

/- ===================== concrete instances used by the theorems ===================== -/

/-- Lookup of a stored metadata record by pipeline name
(`DynamoDBStorage.get_pipeline`). -/
def lookupMeta (w : AwsWorld) (n : String) : Option MetaItem :=
  w.metadataTable.find? (fun m => m.name == n)

/-- A wall clock that advances by one unit at every `datetime.now()` call
(any strictly monotone microsecond clock behaves this way up to scale). -/
def idClock : Clock := { f := fun i => i, i := 0 }

/-- The request of the single-pipeline scenario in the spec:
`{pipelineName: "svc-a", repositoryName: "org/svc-a", branchName: "main",
computeType: "SMALL"}`. -/
def svcACfg : PipelineConfig :=
  { pipelineName := "svc-a", repositoryName := "org/svc-a", branchName := "main",
    buildspecPath := "buildspec.yml", computeType := "SMALL" }

/-- The same request extended with appsettings content, a deployment
config, a scaling config, and the two repository env vars, so that all
three best-effort uploads are exercised. -/
def svcAFullCfg : PipelineConfig :=
  { svcACfg with
    appsettingsContent := some "config",
    deploymentConfig := some { namespc := some "staging-locobuzz" },
    scalingConfig := some { scalingType := some "hpa" },
    environmentVariables :=
      [{ name := "MANIFEST_REPO", value := "staging-repo" },
       { name := "APPSETTINGS_REPO", value := "modernization-appsettings-repo" }] }

/-- A lock table in which alice holds the lock on svc-a, acquired at time 0,
with the production timeout of 30. -/
def c6state : LockManager :=
  { locks := [("svc-a", { user_id := "alice", acquired_at := 0, last_activity := 0 })],
    lock_timeout_minutes := 30 }

/-- A world in which only the two CodeCommit repositories exist. -/
def c9base : AwsWorld :=
  { codecommitRepos := ["staging-repo", "modernization-appsettings-repo"] }

/-- The world after provisioning svc-a (with manifests) into `c9base`. -/
def c9world : AwsWorld := (createOnePipeline c9base idClock svcAFullCfg).world

/-- First run of the deletion workflow on svc-a. -/
def c9run1 : AwsWorld × DeleteResp := delete_pipeline_resources c9world "svc-a"

/-- Second, immediately following run of the deletion workflow on svc-a. -/
def c9run2 : AwsWorld × DeleteResp := delete_pipeline_resources c9run1.1 "svc-a"

/-- Provisioning svc-a into an empty world where the CodeBuild project
creation is made to fail. -/
def c1run : CreateOutcome := createOnePipeline { failCreateBuild := true } idClock svcACfg

/-- Provisioning svc-a into an empty world with an advancing clock. -/
def c7run : CreateOutcome := createOnePipeline {} idClock svcACfg

/-- The batch response for a batch whose only pipeline fails name
validation. -/
def c4resp : BatchResponse :=
  (create_pipelines {} idClock [{ svcACfg with pipelineName := "ab" }]).2

/- ===================== helper lemmas ===================== -/

lemma lookupLock_set (st : LockManager) (n : String) (info : LockInfo) :
    lookupLock (setLock st n info) n = some info := by
  simp [lookupLock, setLock]

lemma lookupLock_erase (st : LockManager) (n : String) :
    lookupLock (eraseLock st n) n = none := by
  simp [lookupLock, eraseLock, List.find?_eq_none]

lemma setLock_timeout (st : LockManager) (n : String) (info : LockInfo) :
    (setLock st n info).lock_timeout_minutes = st.lock_timeout_minutes := rfl

lemma bEU_spec (w4 : AwsWorld) (n : String) (cfg : PipelineConfig)
    (ev4 : List Ev) (led4 : CreatedResources) :
    (bestEffortUploads w4 n cfg ev4 led4).1.ecrRepos = w4.ecrRepos ∧
    (bestEffortUploads w4 n cfg ev4 led4).1.s3Buckets = w4.s3Buckets ∧
    (bestEffortUploads w4 n cfg ev4 led4).1.codebuildProjects = w4.codebuildProjects ∧
    (bestEffortUploads w4 n cfg ev4 led4).1.codepipelines = w4.codepipelines ∧
    (bestEffortUploads w4 n cfg ev4 led4).1.metadataTable = w4.metadataTable ∧
    (bestEffortUploads w4 n cfg ev4 led4).2.1.filter Ev.isDelete =
      ev4.filter Ev.isDelete := by
  unfold bestEffortUploads
  cases h0 : cfg.appsettingsContent <;>
  cases h1 : uploadRepo cfg.environmentVariables "APPSETTINGS_REPO" <;>
  cases h2 : cfg.deploymentConfig <;>
  cases h3 : uploadRepo cfg.environmentVariables "MANIFEST_REPO" <;>
  cases h4 : cfg.scalingConfig <;>
  simp only [h0, h1, h2, h3, h4] <;>
  try split_ifs
  all_goals simp [List.filter_append, Ev.isDelete]

lemma bEU_ecr (w4 : AwsWorld) (n : String) (cfg : PipelineConfig)
    (ev4 : List Ev) (led4 : CreatedResources) :
    (bestEffortUploads w4 n cfg ev4 led4).1.ecrRepos = w4.ecrRepos :=
  (bEU_spec w4 n cfg ev4 led4).1

lemma bEU_s3 (w4 : AwsWorld) (n : String) (cfg : PipelineConfig)
    (ev4 : List Ev) (led4 : CreatedResources) :
    (bestEffortUploads w4 n cfg ev4 led4).1.s3Buckets = w4.s3Buckets :=
  (bEU_spec w4 n cfg ev4 led4).2.1

lemma bEU_build (w4 : AwsWorld) (n : String) (cfg : PipelineConfig)
    (ev4 : List Ev) (led4 : CreatedResources) :
    (bestEffortUploads w4 n cfg ev4 led4).1.codebuildProjects = w4.codebuildProjects :=
  (bEU_spec w4 n cfg ev4 led4).2.2.1

lemma bEU_pipes (w4 : AwsWorld) (n : String) (cfg : PipelineConfig)
    (ev4 : List Ev) (led4 : CreatedResources) :
    (bestEffortUploads w4 n cfg ev4 led4).1.codepipelines = w4.codepipelines :=
  (bEU_spec w4 n cfg ev4 led4).2.2.2.1

lemma bEU_meta (w4 : AwsWorld) (n : String) (cfg : PipelineConfig)
    (ev4 : List Ev) (led4 : CreatedResources) :
    (bestEffortUploads w4 n cfg ev4 led4).1.metadataTable = w4.metadataTable :=
  (bEU_spec w4 n cfg ev4 led4).2.2.2.2.1

lemma bEU_events (w4 : AwsWorld) (n : String) (cfg : PipelineConfig)
    (ev4 : List Ev) (led4 : CreatedResources) :
    (bestEffortUploads w4 n cfg ev4 led4).2.1.filter Ev.isDelete =
      ev4.filter Ev.isDelete :=
  (bEU_spec w4 n cfg ev4 led4).2.2.2.2.2

lemma bEU_none (w4 : AwsWorld) (n : String) (cfg : PipelineConfig)
    (ev4 : List Ev) (led4 : CreatedResources)
    (hna : cfg.appsettingsContent = none) (hnd : cfg.deploymentConfig = none)
    (hns : cfg.scalingConfig = none) :
    bestEffortUploads w4 n cfg ev4 led4 = (w4, ev4, led4) := by
  unfold bestEffortUploads
  simp [hna, hnd, hns]

lemma classifyBatch_spec (l : List RespItem) :
    (classifyBatch l).pipelines = l ∧
    (classifyBatch l).success =
      (l.filter (fun p => p.status == some "error")).isEmpty ∧
    (classifyBatch l).httpStatus =
      (if (l.filter (fun p => p.status == some "error")).isEmpty then 200
       else if (l.filter (fun p => p.status == some "created")).isEmpty then 500
       else 207) := by
  by_cases h1 : (l.filter (fun p => p.status == some "error")).isEmpty <;>
  by_cases h2 : (l.filter (fun p => p.status == some "created")).isEmpty <;>
  simp [classifyBatch, h1, h2]

lemma batch_items_split (rest : List PipelineConfig) :
    ∀ (w : AwsWorld) (clk : Clock) (items0 : List RespItem) (ev0 : List Ev),
    (rest.foldl batchStep
      { world := w, clock := clk, items := items0, events := ev0 }).items =
      items0 ++ (rest.foldl batchStep
        { world := w, clock := clk, items := [], events := [] }).items := by
  induction rest with
  | nil => intro w clk items0 ev0; simp
  | cons c cs ih =>
      intro w clk items0 ev0
      simp only [List.foldl_cons, batchStep, List.nil_append]
      rw [ih, ih ((createOnePipeline w clk c).world) ((createOnePipeline w clk c).clock)
        [(createOnePipeline w clk c).item] ((createOnePipeline w clk c).events)]
      simp

lemma mapFixed {α : Type} (f : α → α) : ∀ (l : List α), (∀ a ∈ l, f a = a) → l.map f = l := by
  intro l h
  induction l with
  | nil => rfl
  | cons a t ih =>
      simp only [List.map_cons, h a (by simp)]
      rw [ih (fun b hb => h b (by simp [hb]))]

lemma pyLowerChar_fixed (c : Char) (h : isLowerAlnumChar c = true ∨ c = '-') :
    pyLowerChar c = c := by
  rcases h with h | h
  · have hb : ¬ (65 ≤ c.toNat ∧ c.toNat ≤ 90) := by
      unfold isLowerAlnumChar at h
      simp at h
      omega
    simp [pyLowerChar, hb]
  · subst h; rfl

lemma pyLower_fixed (s : String) (hm : matchesCore s.data = true) : pyLower s = s := by
  cases s with
  | mk data =>
    cases data with
    | nil => simp [matchesCore] at hm
    | cons c rest =>
        unfold matchesCore at hm
        simp only [Bool.and_eq_true, List.all_eq_true] at hm
        show String.mk ((c :: rest).map pyLowerChar) = String.mk (c :: rest)
        have hfix : (c :: rest).map pyLowerChar = c :: rest := by
          apply mapFixed
          intro a ha
          apply pyLowerChar_fixed
          rcases List.mem_cons.mp ha with h | h
          · subst h; exact Or.inl hm.1
          · have h2 := hm.2 a h
            simp only [Bool.or_eq_true, beq_iff_eq] at h2
            rcases h2 with h2 | h2
            · exact Or.inl h2
            · exact Or.inr h2
        rw [hfix]

lemma validationErrors_nil_of_matches (s : String) (hm : matchesCore s.data = true)
    (h3 : 3 ≤ s.length) (h60 : s.length ≤ 60) : validationErrors s = [] := by
  have hne : s ≠ "" := by
    intro h
    subst h
    simp [matchesCore] at hm
  have hlow : pyLower s = s := pyLower_fixed s hm
  have hreg : pyNameRegexMatch s = true := by
    unfold pyNameRegexMatch
    simp [hm]
  unfold validationErrors
  rw [if_neg hne, if_neg (by omega), if_neg (by omega), if_neg (by simp [hlow]),
    if_neg (by simp [hreg])]
  rfl

lemma validationErrors_required (s : String) (h : s = "") :
    validationErrors s = ["Pipeline name is required"] := by
  subst h; rfl

lemma validationErrors_min (s : String) (hne : s ≠ "") (h : s.length < 3) :
    "Pipeline name must be at least 3 characters" ∈ validationErrors s := by
  unfold validationErrors
  rw [if_neg hne]
  simp [h]

lemma validationErrors_max (s : String) (h : s.length > 60) :
    "Pipeline name must not exceed 60 characters" ∈ validationErrors s := by
  have hne : s ≠ "" := by
    intro he
    subst he
    simp at h
  unfold validationErrors
  rw [if_neg hne]
  simp [h]

lemma validationErrors_lower (s : String) (h : pyLower s ≠ s) :
    "Pipeline name must be lowercase" ∈ validationErrors s := by
  have hne : s ≠ "" := by
    intro he
    exact h (by subst he; rfl)
  unfold validationErrors
  rw [if_neg hne]
  simp [h]

lemma validationErrors_regex (s : String) (hne : s ≠ "") (h : pyNameRegexMatch s = false) :
    "Pipeline name must start with a letter or number and contain only lowercase letters, numbers, and hyphens" ∈ validationErrors s := by
  unfold validationErrors
  rw [if_neg hne]
  simp [h]

lemma batch_continues (w : AwsWorld) (clk : Clock) (c1 : PipelineConfig)
    (rest : List PipelineConfig) (hv1 : validationErrors c1.pipelineName ≠ []) :
    (create_pipelines w clk (c1 :: rest)).1.items =
      ({ name := some c1.pipelineName, success := some false,
         error := some ("Pipeline name validation failed: " ++
           String.intercalate "; " (validationErrors c1.pipelineName)) } : RespItem) ::
        (create_pipelines w clk rest).1.items := by
  have hne : (validationErrors c1.pipelineName).isEmpty = false := by
    cases h : validationErrors c1.pipelineName with
    | nil => exact absurd h hv1
    | cons a l => rfl
  have hco : createOnePipeline w clk c1 =
      { world := w, clock := clk,
        item := { name := some c1.pipelineName, success := some false,
                  error := some ("Pipeline name validation failed: " ++
                    String.intercalate "; " (validationErrors c1.pipelineName)) },
        events := [] } := by
    unfold createOnePipeline
    simp [hne]
  simp only [create_pipelines, List.foldl_cons, batchStep, hco, List.nil_append]
  rw [batch_items_split]
  rfl

/- ===================== claims ===================== -/

/-- Claim C1 (counterexample): with the CodeBuild project creation made to
fail after the ECR repository creation succeeded, the rollback attempts to
delete the registry repository AND the artifact bucket — not exactly the
registry repository and nothing else — while the reported status is
`error`. -/
theorem c1_rollback_counterexample :
    c1run.events.filter Ev.isDelete =
      [Ev.delEcr "svc-a", Ev.delBucket "svc-a-00000000000000"] ∧
    ¬ (c1run.events.filter Ev.isDelete = [Ev.delEcr "svc-a"]) ∧
    c1run.item.status = some "error" := by decide

/-- Claim C1 (amended): if the build-project creation fails after the
registry-repository creation succeeded, the rollback attempts to delete
exactly the registry repository and the artifact S3 bucket (which is
created between them), in that order, and nothing else; the reported final
status is `error` and the rollback itself reports no errors. -/
theorem c1_rollback_registry_and_bucket (w : AwsWorld) (clk : Clock) (cfg : PipelineConfig)
    (hv : validationErrors cfg.pipelineName = [])
    (hp : w.codepipelines.any (fun p => p.1 == cfg.pipelineName) = false)
    (hbp : (cfg.pipelineName ++ "-build") ∉ w.codebuildProjects)
    (her : cfg.pipelineName ∉ w.ecrRepos)
    (hmf : (preflightRepo cfg.environmentVariables "MANIFEST_REPO" "staging-repo",
       cfg.pipelineName ++ "/" ++ cfg.pipelineName ++ ".yml") ∉ w.codecommitFiles)
    (haf : (preflightRepo cfg.environmentVariables "APPSETTINGS_REPO"
        "modernization-appsettings-repo",
       cfg.pipelineName ++ "/appsettings.json") ∉ w.codecommitFiles)
    (he : w.failCreateEcr = false) (hbk : w.failCreateBucket = false)
    (hbs : cfg.useBuildspecFile = true)
    (hbd : w.failCreateBuild = true) :
    (createOnePipeline w clk cfg).events =
      [Ev.createEcr cfg.pipelineName,
       Ev.createBucket (bucketNameFor cfg.pipelineName (clk.f clk.i)),
       Ev.delEcr cfg.pipelineName,
       Ev.delBucket (bucketNameFor cfg.pipelineName (clk.f clk.i))] ∧
    (createOnePipeline w clk cfg).events.filter Ev.isDelete =
      [Ev.delEcr cfg.pipelineName,
       Ev.delBucket (bucketNameFor cfg.pipelineName (clk.f clk.i))] ∧
    (createOnePipeline w clk cfg).item.status = some "error" ∧
    (createOnePipeline w clk cfg).item.rollbackErrors = none := by
  have hconf : preflightConflicts w cfg = [] := by
    simp [preflightConflicts, hp, hbp, her, hmf, haf]
  refine ⟨?_, ?_, ?_, ?_⟩ <;>
  simp [createOnePipeline, creationFailure, rollback_pipeline_resources, Ev.isDelete,
    hv, hconf, he, hbk, hbd, hbs, her, hbp, hp, tick]

/-- Witness for C1 (amended), at the concrete failing run. -/
theorem c1_rollback_registry_and_bucket_witness :
    (createOnePipeline { failCreateBuild := true } idClock svcACfg).events.filter Ev.isDelete =
      [Ev.delEcr svcACfg.pipelineName,
       Ev.delBucket (bucketNameFor svcACfg.pipelineName (idClock.f idClock.i))] ∧
    (createOnePipeline { failCreateBuild := true } idClock svcACfg).item.status =
      some "error" :=
  ⟨(c1_rollback_registry_and_bucket { failCreateBuild := true } idClock svcACfg
      (by decide) (by decide) (by decide) (by decide) (by decide) (by decide)
      (by decide) (by decide) (by decide) (by decide)).2.1,
   (c1_rollback_registry_and_bucket { failCreateBuild := true } idClock svcACfg
      (by decide) (by decide) (by decide) (by decide) (by decide) (by decide)
      (by decide) (by decide) (by decide) (by decide)).2.2.1⟩

/-- Claim C2: for a pipeline name that is unlocked, a non-forced acquire by
A succeeds and a second non-forced acquire by a different holder B issued
while the first lock is live and unexpired fails (exactly one succeeds); a
forced acquire always succeeds and installs the caller as the holder,
replacing any prior lock; and a status query issued strictly after the
timeout has elapsed since acquisition returns none and removes the expired
entry. -/
theorem c2_lock_mutual_exclusion (st : LockManager) (n A B : String) (t1 t2 t3 : Nat)
    (hAB : A ≠ B)
    (h0 : lookupLock st n = none)
    (hlive : t2 ≤ t1 + st.lock_timeout_minutes)
    (hexp : t1 + st.lock_timeout_minutes < t3) :
    (acquire_lock st t1 n A false).2.success = true ∧
    (acquire_lock (acquire_lock st t1 n A false).1 t2 n B false).2.success = false ∧
    (∀ (st2 : LockManager) (u : String) (t : Nat),
      (acquire_lock st2 t n u true).2.success = true ∧
      lookupLock (acquire_lock st2 t n u true).1 n =
        some { user_id := u, acquired_at := t, last_activity := t }) ∧
    (get_lock_status (acquire_lock st t1 n A false).1 t3 n).2 = none ∧
    lookupLock (get_lock_status (acquire_lock st t1 n A false).1 t3 n).1 n = none := by
  have h1 : acquire_lock st t1 n A false = acquireFresh st t1 n A := by
    simp [acquire_lock, h0]
  refine ⟨?_, ?_, ?_, ?_, ?_⟩
  · simp [h1, acquireFresh]
  · rw [h1]
    show (acquire_lock (setLock st n _) t2 n B false).2.success = false
    rw [acquire_lock, lookupLock_set]
    simp only [setLock_timeout]
    rw [if_neg (by omega)]
    simp [hAB]
  · intro st2 u t
    match hl : lookupLock st2 n with
    | none => simp [acquire_lock, hl, acquireFresh, lookupLock_set]
    | some info =>
        by_cases hx : t > info.acquired_at + st2.lock_timeout_minutes
        · simp [acquire_lock, hl, hx, acquireFresh, lookupLock_set]
        · simp [acquire_lock, hl, hx, acquireFresh, lookupLock_set]
  · rw [h1]
    show (get_lock_status (setLock st n _) t3 n).2 = none
    rw [get_lock_status, lookupLock_set]
    simp only [setLock_timeout]
    rw [if_pos (by omega)]
  · rw [h1]
    show lookupLock (get_lock_status (setLock st n _) t3 n).1 n = none
    rw [get_lock_status, lookupLock_set]
    simp only [setLock_timeout]
    rw [if_pos (by omega)]
    exact lookupLock_erase _ _

/-- Witness for C2 at a concrete empty lock table, holders alice and bob,
acquisition at time 0, conflict at time 10, status query at time 31 with a
timeout of 30. -/
theorem c2_lock_mutual_exclusion_witness :
    (acquire_lock { locks := [], lock_timeout_minutes := 30 } 0 "svc-a" "alice"
      false).2.success = true ∧
    (acquire_lock (acquire_lock { locks := [], lock_timeout_minutes := 30 } 0 "svc-a" "alice"
      false).1 10 "svc-a" "bob" false).2.success = false ∧
    (get_lock_status (acquire_lock { locks := [], lock_timeout_minutes := 30 } 0 "svc-a"
      "alice" false).1 31 "svc-a").2 = none :=
  ⟨(c2_lock_mutual_exclusion { locks := [], lock_timeout_minutes := 30 } "svc-a" "alice"
      "bob" 0 10 31 (by decide) (by decide) (by decide) (by decide)).1,
   (c2_lock_mutual_exclusion { locks := [], lock_timeout_minutes := 30 } "svc-a" "alice"
      "bob" 0 10 31 (by decide) (by decide) (by decide) (by decide)).2.1,
   (c2_lock_mutual_exclusion { locks := [], lock_timeout_minutes := 30 } "svc-a" "alice"
      "bob" 0 10 31 (by decide) (by decide) (by decide) (by decide)).2.2.2.1⟩

/-- Claim C3: when the pipeline name is valid but the pre-flight check
finds any existing resource (remote pipeline, build project, registry
repository, manifest file path, or appsettings file path), the creation of
that pipeline is refused with an error message listing every detected
conflict, the remote world is left unchanged, and no remote creation call
is made; each existing resource of the five kinds contributes its entry to
the conflict list. -/
theorem c3_preflight_refusal (w : AwsWorld) (clk : Clock) (cfg : PipelineConfig)
    (hv : validationErrors cfg.pipelineName = [])
    (hc : preflightConflicts w cfg ≠ []) :
    (createOnePipeline w clk cfg).world = w ∧
    (createOnePipeline w clk cfg).events = [] ∧
    (createOnePipeline w clk cfg).item =
      { name := some cfg.pipelineName, success := some false,
        error := some ("Cannot create pipeline " ++ cfg.pipelineName ++
          ". The following resources already exist: " ++
          String.intercalate ", " (preflightConflicts w cfg)) } ∧
    (w.codepipelines.any (fun p => p.1 == cfg.pipelineName) = true →
      ("CodePipeline " ++ cfg.pipelineName) ∈ preflightConflicts w cfg) ∧
    ((cfg.pipelineName ++ "-build") ∈ w.codebuildProjects →
      ("CodeBuild project " ++ cfg.pipelineName ++ "-build") ∈ preflightConflicts w cfg) ∧
    (cfg.pipelineName ∈ w.ecrRepos →
      ("ECR repository " ++ cfg.pipelineName) ∈ preflightConflicts w cfg) ∧
    ((preflightRepo cfg.environmentVariables "MANIFEST_REPO" "staging-repo",
        cfg.pipelineName ++ "/" ++ cfg.pipelineName ++ ".yml") ∈ w.codecommitFiles →
      ("Manifest folder " ++ cfg.pipelineName ++ " in " ++
        preflightRepo cfg.environmentVariables "MANIFEST_REPO" "staging-repo") ∈
        preflightConflicts w cfg) ∧
    ((preflightRepo cfg.environmentVariables "APPSETTINGS_REPO"
        "modernization-appsettings-repo",
        cfg.pipelineName ++ "/appsettings.json") ∈ w.codecommitFiles →
      ("Appsettings folder " ++ cfg.pipelineName ++ " in " ++
        preflightRepo cfg.environmentVariables "APPSETTINGS_REPO"
          "modernization-appsettings-repo") ∈ preflightConflicts w cfg) := by
  have hne : (preflightConflicts w cfg).isEmpty = false := by
    cases h : preflightConflicts w cfg with
    | nil => exact absurd h hc
    | cons a l => rfl
  refine ⟨?_, ?_, ?_, ?_, ?_, ?_, ?_, ?_⟩
  · simp [createOnePipeline, hv, hne]
  · simp [createOnePipeline, hv, hne]
  · simp [createOnePipeline, hv, hne]
  · intro hx; simp [preflightConflicts, hx]
  · intro hx; simp [preflightConflicts, hx]
  · intro hx; simp [preflightConflicts, hx]
  · intro hx; simp [preflightConflicts, hx]
  · intro hx; simp [preflightConflicts, hx]

/-- Witness for C3: a repeated request after the registry repository svc-a
already exists is refused, leaves the world unchanged, and the conflict
list names the ECR repository. -/
theorem c3_preflight_refusal_witness :
    (createOnePipeline { ecrRepos := ["svc-a"] } idClock svcACfg).world =
      { ecrRepos := ["svc-a"] } ∧
    (createOnePipeline { ecrRepos := ["svc-a"] } idClock svcACfg).events = [] ∧
    ("ECR repository " ++ svcACfg.pipelineName) ∈
      preflightConflicts { ecrRepos := ["svc-a"] } svcACfg :=
  ⟨(c3_preflight_refusal { ecrRepos := ["svc-a"] } idClock svcACfg
      (by decide) (by decide)).1,
   (c3_preflight_refusal { ecrRepos := ["svc-a"] } idClock svcACfg
      (by decide) (by decide)).2.1,
   (c3_preflight_refusal { ecrRepos := ["svc-a"] } idClock svcACfg
      (by decide) (by decide)).2.2.2.2.2.1 (by decide)⟩

/-- Claim C4 (counterexample): a batch whose only pipeline fails name
validation has zero successful pipelines, yet the response reports
success=true with HTTP 200 rather than success=false with HTTP 500,
because validation-failure items carry no status key and are counted
neither as created nor as error. -/
theorem c4_zero_success_counterexample :
    (c4resp.pipelines.filter (fun p => p.status == some "created")) = [] ∧
    c4resp.success = true ∧
    c4resp.httpStatus = 200 := by decide

/-- Claim C4 (amended): the batch response carries all per-pipeline items;
its success flag is true iff no item has status `error`, and the HTTP
status is 200 when no item has status `error` (even if nothing was
created, e.g. when items failed validation or pre-flight), 500 when there
are `error` items and no `created` item, and 207 when both kinds are
present. -/
theorem c4_batch_classification_amended (w : AwsWorld) (clk : Clock)
    (cfgs : List PipelineConfig) :
    (create_pipelines w clk cfgs).2.pipelines = (create_pipelines w clk cfgs).1.items ∧
    (create_pipelines w clk cfgs).2.success =
      ((create_pipelines w clk cfgs).1.items.filter
        (fun p => p.status == some "error")).isEmpty ∧
    (create_pipelines w clk cfgs).2.httpStatus =
      (if ((create_pipelines w clk cfgs).1.items.filter
            (fun p => p.status == some "error")).isEmpty then 200
       else if ((create_pipelines w clk cfgs).1.items.filter
            (fun p => p.status == some "created")).isEmpty then 500
       else 207) :=
  classifyBatch_spec (create_pipelines w clk cfgs).1.items

/-- Claim C5: once the core resources were created, failures of any of the
best-effort uploads (appsettings, deployment manifest, scaling manifest —
the upload failure flags are unconstrained here) trigger no rollback: no
deletion call is attempted, the registry repository, artifact bucket,
build project, and pipeline remain in the world, and the pipeline is still
reported as `created`. -/
theorem c5_best_effort_uploads_no_rollback (w : AwsWorld) (clk : Clock)
    (cfg : PipelineConfig)
    (hv : validationErrors cfg.pipelineName = [])
    (hp : w.codepipelines.any (fun p => p.1 == cfg.pipelineName) = false)
    (hbp : (cfg.pipelineName ++ "-build") ∉ w.codebuildProjects)
    (her : cfg.pipelineName ∉ w.ecrRepos)
    (hmf : (preflightRepo cfg.environmentVariables "MANIFEST_REPO" "staging-repo",
       cfg.pipelineName ++ "/" ++ cfg.pipelineName ++ ".yml") ∉ w.codecommitFiles)
    (haf : (preflightRepo cfg.environmentVariables "APPSETTINGS_REPO"
        "modernization-appsettings-repo",
       cfg.pipelineName ++ "/appsettings.json") ∉ w.codecommitFiles)
    (he : w.failCreateEcr = false) (hbk : w.failCreateBucket = false)
    (hbd : w.failCreateBuild = false) (hpp : w.failCreatePipeline = false)
    (hbs : cfg.useBuildspecFile = true) :
    (createOnePipeline w clk cfg).item.status = some "created" ∧
    (createOnePipeline w clk cfg).events.filter Ev.isDelete = [] ∧
    (createOnePipeline w clk cfg).world.ecrRepos.contains cfg.pipelineName = true ∧
    (createOnePipeline w clk cfg).world.s3Buckets.contains
      (bucketNameFor cfg.pipelineName (clk.f clk.i)) = true ∧
    (createOnePipeline w clk cfg).world.codebuildProjects.contains
      (cfg.pipelineName ++ "-build") = true ∧
    (createOnePipeline w clk cfg).world.codepipelines.any
      (fun p => p.1 == cfg.pipelineName) = true := by
  have hconf : preflightConflicts w cfg = [] := by
    simp [preflightConflicts, hp, hbp, her, hmf, haf]
  cases hsv : w.failSaveMetadata <;>
  refine ⟨?_, ?_, ?_, ?_, ?_, ?_⟩ <;>
  simp [createOnePipeline, hv, hconf, he, hbk, hbd, hpp, hbs, her, hbp, hp, hsv, tick,
    Ev.isDelete, bEU_ecr, bEU_s3, bEU_build, bEU_pipes, bEU_meta, bEU_events]

/-- Witness for C5: a full request whose three uploads all fail (all three
upload-failure flags set) still ends `created` with no deletion attempted
and the registry repository present. -/
theorem c5_best_effort_uploads_no_rollback_witness :
    (createOnePipeline
      { failUploadAppsettings := true, failUploadManifest := true,
        failUploadScaling := true } idClock svcAFullCfg).item.status = some "created" ∧
    (createOnePipeline
      { failUploadAppsettings := true, failUploadManifest := true,
        failUploadScaling := true } idClock svcAFullCfg).events.filter Ev.isDelete = [] ∧
    (createOnePipeline
      { failUploadAppsettings := true, failUploadManifest := true,
        failUploadScaling := true } idClock svcAFullCfg).world.ecrRepos.contains
      svcAFullCfg.pipelineName = true :=
  ⟨(c5_best_effort_uploads_no_rollback
      { failUploadAppsettings := true, failUploadManifest := true,
        failUploadScaling := true } idClock svcAFullCfg
      (by decide) (by decide) (by decide) (by decide) (by decide) (by decide)
      (by decide) (by decide) (by decide) (by decide) (by decide)).1,
   (c5_best_effort_uploads_no_rollback
      { failUploadAppsettings := true, failUploadManifest := true,
        failUploadScaling := true } idClock svcAFullCfg
      (by decide) (by decide) (by decide) (by decide) (by decide) (by decide)
      (by decide) (by decide) (by decide) (by decide) (by decide)).2.1,
   (c5_best_effort_uploads_no_rollback
      { failUploadAppsettings := true, failUploadManifest := true,
        failUploadScaling := true } idClock svcAFullCfg
      (by decide) (by decide) (by decide) (by decide) (by decide) (by decide)
      (by decide) (by decide) (by decide) (by decide) (by decide)).2.2.1⟩

/-- Claim C6 (code bug): the HTTP release routes pass a `force` argument to
`LockManager.release_lock`, whose Python signature has no such parameter.
With alice holding the lock on svc-a: a force-release by bob raises
TypeError (unexpected keyword argument) and answers success=false with
HTTP 500, leaving the lock in place; even the plain release by the holder
alice raises TypeError (three positional arguments against two parameters)
and answers 500 with the lock unchanged; the underlying two-argument
method itself behaves as the claim describes for the non-forced cases
(holder release succeeds and removes the lock, non-holder release fails). -/
theorem c6_release_endpoints_typeerror :
    (force_release_pipeline_lock c6state "svc-a" "bob").2 =
      { success := false, httpStatus := 500,
        message := "TypeError: got an unexpected keyword argument" } ∧
    (force_release_pipeline_lock c6state "svc-a" "bob").1 = c6state ∧
    (release_pipeline_lock c6state "svc-a" "alice" false).2.httpStatus = 500 ∧
    (release_pipeline_lock c6state "svc-a" "alice" false).2.success = false ∧
    (release_pipeline_lock c6state "svc-a" "alice" false).1 = c6state ∧
    (release_lock c6state "svc-a" "alice").2.success = true ∧
    lookupLock (release_lock c6state "svc-a" "alice").1 "svc-a" = none ∧
    (release_lock c6state "svc-a" "bob").2.success = false ∧
    (release_lock { locks := [], lock_timeout_minutes := 30 } "svc-a" "bob").2.success =
      true := by decide

/-- Claim C7 (counterexample): for the single svc-a request against an
empty world, with a wall clock that advances between the two
datetime.now() samples, the persisted record has createdAt = 1 and
lastUpdated = 2 — they are NOT equal, refuting the createdAt == lastUpdated
part of the claim even though the pipeline is reported `created`. -/
theorem c7_created_ne_updated_counterexample :
    c7run.item.status = some "created" ∧
    (lookupMeta c7run.world "svc-a").map (fun m => m.createdAt) = some 1 ∧
    (lookupMeta c7run.world "svc-a").map (fun m => m.lastUpdated) = some 2 ∧
    ¬ ((lookupMeta c7run.world "svc-a").map (fun m => m.createdAt) =
        (lookupMeta c7run.world "svc-a").map (fun m => m.lastUpdated)) := by decide

/-- Claim C7 (amended): for a single valid request with no pre-existing
remote resources and no optional uploads, the workflow creates the
registry repository, artifact bucket, build project, and pipeline in that
order (registry before build project before pipeline), persists a metadata
record whose createdAt and lastUpdated are the 2nd and 3rd datetime.now()
samples of the run, so that createdAt ≤ lastUpdated for every monotone
wall clock (equality is not guaranteed: the two fields are separate now()
calls), and reports status `created`. -/
theorem c7_single_creation_amended (w : AwsWorld) (clk : Clock) (cfg : PipelineConfig)
    (hmono : ∀ a b : Nat, a ≤ b → clk.f a ≤ clk.f b)
    (hv : validationErrors cfg.pipelineName = [])
    (hp : w.codepipelines.any (fun p => p.1 == cfg.pipelineName) = false)
    (hbp : (cfg.pipelineName ++ "-build") ∉ w.codebuildProjects)
    (her : cfg.pipelineName ∉ w.ecrRepos)
    (hmf : (preflightRepo cfg.environmentVariables "MANIFEST_REPO" "staging-repo",
       cfg.pipelineName ++ "/" ++ cfg.pipelineName ++ ".yml") ∉ w.codecommitFiles)
    (haf : (preflightRepo cfg.environmentVariables "APPSETTINGS_REPO"
        "modernization-appsettings-repo",
       cfg.pipelineName ++ "/appsettings.json") ∉ w.codecommitFiles)
    (he : w.failCreateEcr = false) (hbk : w.failCreateBucket = false)
    (hbd : w.failCreateBuild = false) (hpp : w.failCreatePipeline = false)
    (hsv : w.failSaveMetadata = false) (hbs : cfg.useBuildspecFile = true)
    (hna : cfg.appsettingsContent = none) (hnd : cfg.deploymentConfig = none)
    (hns : cfg.scalingConfig = none) :
    (createOnePipeline w clk cfg).events =
      [Ev.createEcr cfg.pipelineName,
       Ev.createBucket (bucketNameFor cfg.pipelineName (clk.f clk.i)),
       Ev.createBuild (cfg.pipelineName ++ "-build"),
       Ev.createPipeline cfg.pipelineName] ∧
    (createOnePipeline w clk cfg).item.status = some "created" ∧
    (lookupMeta (createOnePipeline w clk cfg).world cfg.pipelineName).map
      (fun m => m.createdAt) = some (clk.f (clk.i + 1)) ∧
    (lookupMeta (createOnePipeline w clk cfg).world cfg.pipelineName).map
      (fun m => m.lastUpdated) = some (clk.f (clk.i + 2)) ∧
    (∀ m : MetaItem, lookupMeta (createOnePipeline w clk cfg).world cfg.pipelineName =
      some m → m.createdAt ≤ m.lastUpdated) := by
  have hconf : preflightConflicts w cfg = [] := by
    simp [preflightConflicts, hp, hbp, her, hmf, haf]
  have h3 : (lookupMeta (createOnePipeline w clk cfg).world cfg.pipelineName).map
      (fun m => m.createdAt) = some (clk.f (clk.i + 1)) := by
    simp [createOnePipeline, hv, hconf, he, hbk, hbd, hpp, hbs, hsv, her, hbp, hp, tick,
      bEU_none _ _ _ _ _ hna hnd hns, lookupMeta]
  have h4 : (lookupMeta (createOnePipeline w clk cfg).world cfg.pipelineName).map
      (fun m => m.lastUpdated) = some (clk.f (clk.i + 2)) := by
    simp [createOnePipeline, hv, hconf, he, hbk, hbd, hpp, hbs, hsv, her, hbp, hp, tick,
      bEU_none _ _ _ _ _ hna hnd hns, lookupMeta]
  refine ⟨?_, ?_, h3, h4, ?_⟩
  · simp [createOnePipeline, hv, hconf, he, hbk, hbd, hpp, hbs, hsv, her, hbp, hp, tick,
      bEU_none _ _ _ _ _ hna hnd hns]
  · simp [createOnePipeline, hv, hconf, he, hbk, hbd, hpp, hbs, hsv, her, hbp, hp, tick,
      bEU_none _ _ _ _ _ hna hnd hns]
  · intro m hm
    rw [hm] at h3 h4
    simp at h3 h4
    rw [h3, h4]
    exact hmono _ _ (by omega)

/-- Witness for C7 (amended) at the concrete svc-a run with the advancing
clock. -/
theorem c7_single_creation_amended_witness :
    (createOnePipeline {} idClock svcACfg).events =
      [Ev.createEcr svcACfg.pipelineName,
       Ev.createBucket (bucketNameFor svcACfg.pipelineName (idClock.f idClock.i)),
       Ev.createBuild (svcACfg.pipelineName ++ "-build"),
       Ev.createPipeline svcACfg.pipelineName] ∧
    (createOnePipeline {} idClock svcACfg).item.status = some "created" ∧
    (lookupMeta (createOnePipeline {} idClock svcACfg).world svcACfg.pipelineName).map
      (fun m => m.createdAt) = some (idClock.f (idClock.i + 1)) :=
  ⟨(c7_single_creation_amended {} idClock svcACfg (fun a b h => h)
      (by decide) (by decide) (by decide) (by decide) (by decide) (by decide)
      (by decide) (by decide) (by decide) (by decide) (by decide) (by decide)
      (by decide) (by decide) (by decide)).1,
   (c7_single_creation_amended {} idClock svcACfg (fun a b h => h)
      (by decide) (by decide) (by decide) (by decide) (by decide) (by decide)
      (by decide) (by decide) (by decide) (by decide) (by decide) (by decide)
      (by decide) (by decide) (by decide)).2.1,
   (c7_single_creation_amended {} idClock svcACfg (fun a b h => h)
      (by decide) (by decide) (by decide) (by decide) (by decide) (by decide)
      (by decide) (by decide) (by decide) (by decide) (by decide) (by decide)
      (by decide) (by decide) (by decide)).2.2.1⟩

/-- Claim C8 (counterexample): the name consisting of a, b and a trailing
newline violates the charset rule (it contains a character that is not a
lowercase letter, digit, or hyphen), yet validation accepts it, because
the Python regex anchor also matches just before a trailing newline. -/
theorem c8_trailing_newline_counterexample :
    validationErrors "ab\n" = [] ∧
    ("ab\n".data.all (fun c => isLowerAlnumChar c || c == '-')) = false := by decide

/-- Claim C8 (amended): a name matching the accepted pattern (3-60
characters of lowercase letters, digits, and hyphens, starting with a
letter or digit) passes validation; an empty name yields exactly the
required-name error; each rule violation — too short, too long, not
lowercase, or failing the Python regex (which, unlike the documented
charset rule, tolerates one trailing newline) — contributes its
identifying message to the error list; and a validation failure for one
pipeline does not abort the batch: its item is emitted and the remaining
pipelines are processed against the unchanged world. -/
theorem c8_name_validation_amended :
    (∀ s : String, matchesCore s.data = true → 3 ≤ s.length → s.length ≤ 60 →
      validationErrors s = []) ∧
    (∀ s : String, s = "" → validationErrors s = ["Pipeline name is required"]) ∧
    (∀ s : String, s ≠ "" → s.length < 3 →
      "Pipeline name must be at least 3 characters" ∈ validationErrors s) ∧
    (∀ s : String, s.length > 60 →
      "Pipeline name must not exceed 60 characters" ∈ validationErrors s) ∧
    (∀ s : String, pyLower s ≠ s →
      "Pipeline name must be lowercase" ∈ validationErrors s) ∧
    (∀ s : String, s ≠ "" → pyNameRegexMatch s = false →
      "Pipeline name must start with a letter or number and contain only lowercase letters, numbers, and hyphens" ∈ validationErrors s) ∧
    (∀ (w : AwsWorld) (clk : Clock) (c1 : PipelineConfig) (rest : List PipelineConfig),
      validationErrors c1.pipelineName ≠ [] →
      (create_pipelines w clk (c1 :: rest)).1.items =
        ({ name := some c1.pipelineName, success := some false,
           error := some ("Pipeline name validation failed: " ++
             String.intercalate "; " (validationErrors c1.pipelineName)) } : RespItem) ::
          (create_pipelines w clk rest).1.items) :=
  ⟨validationErrors_nil_of_matches, validationErrors_required, validationErrors_min,
   validationErrors_max, validationErrors_lower, validationErrors_regex, batch_continues⟩

/-- Witness for C8 at concrete names: svc-a passes, ab is too short, Svc-a
is not lowercase, -ab fails the pattern, a 61-character name is too long,
the empty name is required, and a batch starting with the invalid name ab
still processes the rest. -/
theorem c8_name_validation_amended_witness :
    validationErrors "svc-a" = [] ∧
    validationErrors "" = ["Pipeline name is required"] ∧
    "Pipeline name must be at least 3 characters" ∈ validationErrors "ab" ∧
    "Pipeline name must not exceed 60 characters" ∈
      validationErrors "aaaaaaaaaaaaaaaaaaaaaaaaaaaaaaaaaaaaaaaaaaaaaaaaaaaaaaaaaaaaa" ∧
    "Pipeline name must be lowercase" ∈ validationErrors "Svc-a" ∧
    "Pipeline name must start with a letter or number and contain only lowercase letters, numbers, and hyphens" ∈ validationErrors "-ab" ∧
    (create_pipelines {} idClock [{ svcACfg with pipelineName := "ab" }]).1.items =
      ({ name := some "ab", success := some false,
         error := some ("Pipeline name validation failed: " ++
           String.intercalate "; " (validationErrors "ab")) } : RespItem) ::
        (create_pipelines {} idClock []).1.items :=
  ⟨c8_name_validation_amended.1 "svc-a" (by decide) (by decide) (by decide),
   c8_name_validation_amended.2.1 "" (by decide),
   c8_name_validation_amended.2.2.1 "ab" (by decide) (by decide),
   c8_name_validation_amended.2.2.2.1
     "aaaaaaaaaaaaaaaaaaaaaaaaaaaaaaaaaaaaaaaaaaaaaaaaaaaaaaaaaaaaa" (by decide),
   c8_name_validation_amended.2.2.2.2.1 "Svc-a" (by decide),
   c8_name_validation_amended.2.2.2.2.2.1 "-ab" (by decide) (by decide),
   c8_name_validation_amended.2.2.2.2.2.2 {} idClock
     { svcACfg with pipelineName := "ab" } [] (by decide)⟩

/-- Claim C9 (code bug): after a complete first deletion run for svc-a, a
second run does not yield a not-found outcome for every resource: the
pipeline, build project, and registry repository do report not found, but
the S3 step reports a caught NameError (app.py line 1997 interpolates the
undefined variable named pattern), the manifest and appsettings steps are
skipped entirely (the metadata that selects them was deleted by the first
run), and the metadata step reports a successful deletion again; the run
still completes without raising, returning its successes and errors
lists. -/
theorem c9_second_deletion_run_eval :
    c9run1.2.errors = [] ∧
    c9run2.2.successes = ["✅ Deleted pipeline metadata for: svc-a"] ∧
    c9run2.2.errors =
      ["⚠️ CodePipeline svc-a not found",
       "⚠️ CodeBuild project svc-a-build not found",
       "⚠️ ECR repository svc-a not found",
       s3ScanError] ∧
    c9run2.2.success = true := by decide

/-- Claim C10: a non-forced re-acquire by the current holder of a live
lock always succeeds and resets the acquisition time to the current time,
pushing the expiry a full timeout into the future, while a subsequent
refresh only updates last_activity and leaves the acquisition time — and
therefore the expiry — unchanged. -/
theorem c10_reacquire_resets_expiry (st : LockManager) (n A : String) (t0 la t1 t2 : Nat)
    (h0 : lookupLock st n = some { user_id := A, acquired_at := t0, last_activity := la })
    (hlive : t1 ≤ t0 + st.lock_timeout_minutes) :
    (acquire_lock st t1 n A false).2.success = true ∧
    (acquire_lock st t1 n A false).2.expires_at = t1 + st.lock_timeout_minutes ∧
    lookupLock (acquire_lock st t1 n A false).1 n =
      some { user_id := A, acquired_at := t1, last_activity := t1 } ∧
    lookupLock (refresh_lock (acquire_lock st t1 n A false).1 t2 n A).1 n =
      some { user_id := A, acquired_at := t1, last_activity := t2 } := by
  have h1 : acquire_lock st t1 n A false = acquireFresh st t1 n A := by
    rw [acquire_lock, h0]
    simp only
    rw [if_neg (by omega)]
    simp
  refine ⟨?_, ?_, ?_, ?_⟩
  · simp [h1, acquireFresh]
  · simp [h1, acquireFresh]
  · simp [h1, acquireFresh, lookupLock_set]
  · rw [h1]
    show lookupLock (refresh_lock (setLock st n _) t2 n A).1 n = _
    rw [refresh_lock, lookupLock_set]
    simp [lookupLock_set, setLock, lookupLock]

/-- Witness for C10: alice re-acquires her own lock at time 10 (timeout
30), the expiry moves to 40, and a refresh at time 25 keeps the
acquisition time at 10. -/
theorem c10_reacquire_resets_expiry_witness :
    (acquire_lock c6state 10 "svc-a" "alice" false).2.success = true ∧
    (acquire_lock c6state 10 "svc-a" "alice" false).2.expires_at = 40 ∧
    lookupLock (refresh_lock (acquire_lock c6state 10 "svc-a" "alice" false).1 25
      "svc-a" "alice").1 "svc-a" =
      some { user_id := "alice", acquired_at := 10, last_activity := 25 } :=
  ⟨(c10_reacquire_resets_expiry c6state "svc-a" "alice" 0 0 10 25
      (by decide) (by decide)).1,
   (c10_reacquire_resets_expiry c6state "svc-a" "alice" 0 0 10 25
      (by decide) (by decide)).2.1,
   (c10_reacquire_resets_expiry c6state "svc-a" "alice" 0 0 10 25
      (by decide) (by decide)).2.2.2⟩
